import Mathlib

/-!
A shallow embedding of pg_promise_sandbox (src/index.js) and proofs about it.

The library wraps a pg-promise client in a JS Proxy.  A `Sandboxer` object
holds the base client (`pg`), a `mode` string, a `context` Map from
async_hooks ids to sandbox ids, and a `sandboxes` object mapping sandbox ids
to `{tx, rollback}` records.  The embedding models:

* the two registries as association lists with JS Map / object-key semantics
  (`mapGet`, `mapSet`, `mapDelete`, `objGet`);
* the async_hooks hook installed by the constructor (`hookInit`,
  `hookDestroy`, `hookStep`);
* connection resolution (`_getConn`) and the proxy `get` trap (`proxyGet`);
* promise settlement capabilities (`Cap`, `settleOf`) for the transaction
  body promise created by `grabTransactionReference`;
* the observable event traces of `createSandbox` (`createSandboxTrace`) and
  `closeSandbox` (`closeSandbox`, `closeRunTrace`), together with the JS
  event-loop fact that awaiting a non-thenable value resumes before any later
  I/O completion callback runs.
-/

namespace PgSandbox

/-- Identifiers that async_hooks assigns to units of asynchronous execution
(continuations).  Read by `executionAsyncId()` in the source. -/
abbrev AsyncId := Nat

/-- Sandbox identifiers; the source mints them with `uuid.v4()`, an external
collaborator, so they enter the model as plain string parameters. -/
abbrev SandboxId := String

/-- Opaque transaction handles: the `tx` object pg-promise passes to the
transaction body.  Only its identity matters here. -/
abbrev TxHandle := Nat

/-- The JS values the claims mention.  `rollbackMarker` is the `ROLLBACK`
sentinel, `thisObj` stands for the `Sandboxer` instance itself (the value
`closeSandbox` returns), `sid` wraps a sandbox id handed to a caller, `err`
is an arbitrary error value produced by the database client. -/
inductive Value where
  | undefined
  | thisObj
  | sid (id : SandboxId)
  | rollbackMarker
  | err (msg : String)
deriving DecidableEq

/-- Modelled from the spec: `src/constants.js` is required by src/index.js but
is not part of the repository snapshot.  The spec calls `ROLLBACK` the
"sentinel rollback marker", a recognized value distinct from genuine errors;
its concrete representation is irrelevant, only its identity is used
(compared with `!==` in the source). -/
def ROLLBACK : Value := Value.rollbackMarker

/-- Modelled from the spec: the `NORMAL` mode string from `src/constants.js`
(the spec's exposed-API section gives the recognized options as
"normal" | "sandbox"). -/
def NORMAL : String := "normal"

/-- Modelled from the spec: the `SANDBOX` mode string from
`src/constants.js`. -/
def SANDBOX : String := "sandbox"

/-- Lookup in an association list, the model of JS `Map.get` and of property
lookup on a plain object used as a dictionary. -/
def mapGet {α β : Type} [DecidableEq α] : List (α × β) → α → Option β
  | [], _ => none
  | (k', v) :: rest, k => if k' = k then some v else mapGet rest k

/-- Removal of a key, the model of JS `Map.delete` and of the `delete`
operator.  All pairs with the key are removed, matching the fact that a JS
map or object holds at most one binding per key. -/
def mapDelete {α β : Type} [DecidableEq α] (m : List (α × β)) (k : α) : List (α × β) :=
  m.filter fun p => decide (p.1 ≠ k)

/-- Overwriting insertion, the model of JS `Map.set` and of property
assignment on an object. -/
def mapSet {α β : Type} [DecidableEq α] (m : List (α × β)) (k : α) (v : β) : List (α × β) :=
  (k, v) :: mapDelete m k

/-- Lookup on `this.sandboxes` where the key comes from
`this.context.get(...)` and may be `undefined`: `sandboxes[undefined]` reads
the property named "undefined", which is never a uuid, so the lookup misses.
A present key is looked up as usual. -/
def objGet {β : Type} (m : List (SandboxId × β)) : Option SandboxId → Option β
  | none => none
  | some k => mapGet m k

/-- Settlement capabilities of a promise: the `resolve` and `reject` functions
its executor receives.  Here the only promises whose capabilities circulate
are the transaction body promises, one per sandbox, so a capability is tagged
with the owning sandbox id. -/
inductive Cap where
  | resolveCap (owner : SandboxId)
  | rejectCap (owner : SandboxId)
deriving DecidableEq

/-- Invoking a promise `resolve` or `reject` function in JS returns
`undefined`, whatever the argument; this return value is what
`closeSandbox` ends up awaiting. -/
def capReturn (_c : Cap) (_v : Value) : Value := Value.undefined

/-- A Sandbox Registry entry, `{ tx, rollback }` in src/index.js:64: the
captured transaction handle and the stored rollback trigger (the reject
capability of the transaction body promise). -/
structure SandboxEntry where
  tx : TxHandle
  rollback : Cap
deriving DecidableEq

/-- How a promise settles. -/
inductive Settlement where
  | fulfilled (v : Value)
  | rejected (v : Value)
deriving DecidableEq

/-- The settlement of the transaction body promise owned by sandbox `nid`,
given the chronological list of capability invocations: the first invocation
of one of its own capabilities wins, later ones are no-ops (JS promise
semantics). -/
def settleOf (nid : SandboxId) : List (Cap × Value) → Option Settlement
  | [] => none
  | (Cap.resolveCap p, v) :: rest =>
    if p = nid then some (Settlement.fulfilled v) else settleOf nid rest
  | (Cap.rejectCap p, v) :: rest =>
    if p = nid then some (Settlement.rejected v) else settleOf nid rest

/-- The mutable state of a `Sandboxer` (src/index.js:11-15): the `mode`
string, the `context` Map (Context Registry: async id to sandbox id) and the
`sandboxes` object (Sandbox Registry: sandbox id to entry).  The base client
`this.pg` is opaque and needs no state of its own. -/
structure SandboxerState where
  mode : String
  context : List (AsyncId × SandboxId)
  sandboxes : List (SandboxId × SandboxEntry)
deriving DecidableEq

/-- The `init` hook (src/index.js:29-33): when a continuation `asyncId` is
created by continuation `triggerAsyncId`, and the trigger has a Context
Registry entry, copy it to the new id; otherwise do nothing. -/
def hookInit (ctx : List (AsyncId × SandboxId)) (asyncId triggerAsyncId : AsyncId) :
    List (AsyncId × SandboxId) :=
  match mapGet ctx triggerAsyncId with
  | some sid => mapSet ctx asyncId sid
  | none => ctx

/-- The `destroy` hook (src/index.js:34-38): when continuation `asyncId` is
destroyed, remove its Context Registry entry if present. -/
def hookDestroy (ctx : List (AsyncId × SandboxId)) (asyncId : AsyncId) :
    List (AsyncId × SandboxId) :=
  if (mapGet ctx asyncId).isSome then mapDelete ctx asyncId else ctx

/-- The only continuation-lifecycle events the hook installed by the
`Sandboxer` constructor reacts to: `init` (with the trigger id) and
`destroy`.  The hook object passed to `asyncHooks.createHook` has exactly
these two handlers, so these are the only tracker actions that touch the
Context Registry. -/
inductive HookEvent where
  | initEvt (asyncId triggerAsyncId : AsyncId)
  | destroyEvt (asyncId : AsyncId)
deriving DecidableEq

/-- One tracker step: dispatch a lifecycle event to the matching handler. -/
def hookStep (ctx : List (AsyncId × SandboxId)) : HookEvent → List (AsyncId × SandboxId)
  | HookEvent.initEvt a t => hookInit ctx a t
  | HookEvent.destroyEvt a => hookDestroy ctx a

/-- The connection a forwarded access resolves to: the base client `this.pg`
or the transaction handle of some sandbox. -/
inductive Conn where
  | base
  | tx (handle : TxHandle)
deriving DecidableEq

/-- The function `_getConn` (src/index.js:42-53): in normal mode the base
client; otherwise look the current async id up in the Context Registry, look
the resulting id (possibly `undefined`) up in the Sandbox Registry, and
return the found entry's transaction handle, falling back to the base
client. -/
def _getConn (st : SandboxerState) (e : AsyncId) : Conn :=
  if st.mode = NORMAL then Conn.base
  else
    match objGet st.sandboxes (mapGet st.context e) with
    | some found => Conn.tx found.tx
    | none => Conn.base

/-- Own properties of a `Sandboxer` instance (src/index.js:11-15): the fields
the constructor assigns. -/
def sandboxerInstanceFields : List String := ["pg", "mode", "sandboxes", "context"]

/-- Properties of `Sandboxer.prototype`: the class methods, plus
`constructor`. -/
def sandboxerPrototypeFields : List String :=
  ["constructor", "_getConn", "createSandbox", "closeSandbox"]

/-- Properties every plain object inherits from `Object.prototype`; they are
on the `Sandboxer`'s prototype chain, so `Reflect.has` sees them too. -/
def objectPrototypeFields : List String :=
  ["toString", "toLocaleString", "valueOf", "hasOwnProperty", "isPrototypeOf",
   "propertyIsEnumerable", "__proto__", "__defineGetter__", "__defineSetter__",
   "__lookupGetter__", "__lookupSetter__"]

/-- The model of `Reflect.has(target, name)` for a `Sandboxer` target: true
exactly for the names the instance or its prototype chain defines. -/
def hasProp (name : String) : Bool :=
  sandboxerInstanceFields.contains name || sandboxerPrototypeFields.contains name ||
    objectPrototypeFields.contains name

/-- Outcome of a property read through the proxy: either the property is
served by the `Sandboxer` itself, or the read is forwarded to the resolved
connection. -/
inductive GetResult where
  | fromSandboxer (name : String)
  | fromConn (conn : Conn) (name : String)
deriving DecidableEq

/-- The proxy `get` trap of `pgSandbox` (src/index.js:110-123): a name the
`Sandboxer` does not have (`!Reflect.has(target, name)`) is read off the
connection `target._getConn()` resolves; any name the `Sandboxer` has is read
off the `Sandboxer` itself. -/
def proxyGet (st : SandboxerState) (e : AsyncId) (name : String) : GetResult :=
  if hasProp name then GetResult.fromSandboxer name
  else GetResult.fromConn ( _getConn st e) name

/-- The transaction body `grabTransactionReference(callback)` returns
(src/index.js:63-66): called by pg-promise with the transaction handle, it
builds a new promise whose executor discards the resolve capability (the
source binds it to the hole `_`) and, before any caller code runs, stores the
handle together with the reject capability (named `rollback`) in the Sandbox
Registry under the sandbox id, then invokes the callback with the id.  Only
the registry update is returned here; the callback invocation is the
`outerResolve` event of `createSandboxTrace`. -/
def grabTransactionReference (sandboxes : List (SandboxId × SandboxEntry))
    (id : SandboxId) (tx : TxHandle) : List (SandboxId × SandboxEntry) :=
  mapSet sandboxes id { tx := tx, rollback := Cap.rejectCap id }

/-- How one `pg.tx(...)` call can unfold, as dictated by the external
database client:

* `bodyInvoked tx later`: BEGIN succeeds and pg-promise invokes the body with
  handle `tx`.  The body synchronously stores the registry entry and resolves
  the outer promise, so by the time the transaction promise can settle the
  outer promise is already resolved (`resolved === true`); `later` is the
  value the transaction promise eventually rejects with (`none` while it is
  still pending).  It never fulfills, because the body promise never does.
* `failedBeforeBody err`: the begin call fails without ever invoking the
  body, and the transaction promise rejects with `err` (an arbitrary value,
  possibly even equal to the sentinel) while `resolved === false`. -/
inductive TxRun where
  | bodyInvoked (tx : TxHandle) (later : Option Value)
  | failedBeforeBody (err : Value)
deriving DecidableEq

/-- Observable events of one `createSandbox` call (src/index.js:59-82). -/
inductive CSEvent where
  | contextBind (e : AsyncId) (id : SandboxId)
  | sandboxStore (id : SandboxId)
  | outerResolve (id : SandboxId)
  | outerRejectCall (v : Value)
  | txSettled (v : Value)
deriving DecidableEq

/-- The synchronous prefix of `createSandbox` (src/index.js:60-61): mint an id
(`uuid.v4()`, supplied here as the parameter `nid`) and record it against the
current async id in the Context Registry, before `pg.tx` is even called. -/
def createSandboxSync (st : SandboxerState) (e : AsyncId) (nid : SandboxId) :
    SandboxerState :=
  { st with context := mapSet st.context e nid }

/-- The registry state once the `pg.tx` call has unfolded as `run`: if the
body ran, the Sandbox Registry holds the captured entry; if the begin call
failed first, only the context binding happened. -/
def createSandboxAfter (st : SandboxerState) (e : AsyncId) (nid : SandboxId) :
    TxRun → SandboxerState
  | TxRun.bodyInvoked tx _ =>
    let st' := createSandboxSync st e nid
    { st' with sandboxes := grabTransactionReference st'.sandboxes nid tx }
  | TxRun.failedBeforeBody _ => createSandboxSync st e nid

/-- The chronological event trace of one `createSandbox` call whose `pg.tx`
call unfolds as `run`.  When the body is invoked, the store and the outer
resolution happen synchronously inside the body, before the transaction
promise can settle; when it later rejects with `v`, the `.catch` handler
calls the outer `reject` only if `!resolved || v !== ROLLBACK`, and
`resolved` is `true` by then.  When the begin call fails before the body,
`resolved` is `false`, so the handler always calls the outer `reject`. -/
def createSandboxTrace (e : AsyncId) (nid : SandboxId) : TxRun → List CSEvent
  | TxRun.bodyInvoked _ later =>
    CSEvent.contextBind e nid :: CSEvent.sandboxStore nid :: CSEvent.outerResolve nid ::
      (match later with
       | none => []
       | some v =>
         CSEvent.txSettled v ::
           (if v = ROLLBACK then [] else [CSEvent.outerRejectCall v]))
  | TxRun.failedBeforeBody v =>
    [CSEvent.contextBind e nid, CSEvent.txSettled v, CSEvent.outerRejectCall v]

/-- The settlement of the promise `createSandbox` returns, read off its event
trace: the first `resolve`/`reject` invocation wins, later invocations are
no-ops (JS promise semantics). -/
def outerSettlement : List CSEvent → Option Settlement
  | [] => none
  | CSEvent.outerResolve id :: _ => some (Settlement.fulfilled (Value.sid id))
  | CSEvent.outerRejectCall v :: _ => some (Settlement.rejected v)
  | _ :: rest => outerSettlement rest

/-- Observable events of one `closeSandbox` call and of the transaction it
rolls back. -/
inductive CloseEvent where
  | triggerInvoked (c : Cap) (v : Value)
  | awaited (v : Value)
  | sandboxDeleted (id : SandboxId)
  | closeFulfilled (v : Value)
  | txSettledEvt (v : Value)
deriving DecidableEq

/-- What one `closeSandbox` call produces: its own event list, the state it
leaves, and the settlement of the promise it returns. -/
structure CloseResult where
  events : List CloseEvent
  state : SandboxerState
  settlement : Settlement
deriving DecidableEq

/-- The function `closeSandbox` (src/index.js:87-96).  It reads
`this.context.get(executionAsyncId())`; if that id, looked up in
`this.sandboxes`, yields no entry (no context binding, or the binding's
sandbox was never created or already closed), the function returns at once —
being `async`, its promise fulfills with `this`, and neither registry is
touched.  Otherwise it invokes the stored rollback trigger with the
`ROLLBACK` sentinel, awaits the value that call returns (`undefined`, by
`capReturn`), deletes the Sandbox Registry entry — the Context Registry entry
is left in place — and fulfills with `this`. -/
def closeSandbox (st : SandboxerState) (e : AsyncId) : CloseResult :=
  match mapGet st.context e with
  | none =>
    { events := [CloseEvent.closeFulfilled Value.thisObj], state := st,
      settlement := Settlement.fulfilled Value.thisObj }
  | some id =>
    match mapGet st.sandboxes id with
    | none =>
      { events := [CloseEvent.closeFulfilled Value.thisObj], state := st,
        settlement := Settlement.fulfilled Value.thisObj }
    | some conn =>
      { events := [CloseEvent.triggerInvoked conn.rollback ROLLBACK,
                   CloseEvent.awaited (capReturn conn.rollback ROLLBACK),
                   CloseEvent.sandboxDeleted id,
                   CloseEvent.closeFulfilled Value.thisObj],
        state := { st with sandboxes := mapDelete st.sandboxes id },
        settlement := Settlement.fulfilled Value.thisObj }

/-- The full event order of a `closeSandbox` call followed by the settlement
of the transaction it rolled back.  The value `closeSandbox` awaits is the
`undefined` returned by the reject function, not a thenable, so the `async`
continuation resumes in a microtask of the current event-loop turn; the
database ROLLBACK issued in reaction to the body promise's rejection needs at
least one later I/O turn, so the transaction promise settles strictly after
`closeSandbox`'s own events — it is appended at the end. -/
def closeRunTrace (st : SandboxerState) (e : AsyncId) : List CloseEvent :=
  (closeSandbox st e).events ++
    match mapGet st.context e with
    | none => []
    | some id =>
      match mapGet st.sandboxes id with
      | none => []
      | some _ => [CloseEvent.txSettledEvt ROLLBACK]

/-- Recognizer for the event that fulfills the promise `closeSandbox`
returned. -/
def isCloseFulfilledEvt : CloseEvent → Bool
  | CloseEvent.closeFulfilled _ => true
  | _ => false

/-- Recognizer for the event that settles the transaction promise. -/
def isTxSettledEvt : CloseEvent → Bool
  | CloseEvent.txSettledEvt _ => true
  | _ => false

/-- A concrete sandbox-mode state with one open sandbox: continuation 1 is
bound to sandbox "s0", whose entry holds transaction handle 7 and the
rollback trigger of its body promise. -/
def stOpen : SandboxerState :=
  { mode := SANDBOX,
    context := [(1, "s0")],
    sandboxes := [("s0", { tx := 7, rollback := Cap.rejectCap "s0" })] }

/-- Claim C3 exactly as stated, for refutation: when the current continuation
resolves to an open sandbox, `closeSandbox` invokes the stored rollback
trigger with the sentinel, evicts BOTH registry entries (the Sandbox Registry
entry for the id and the Context Registry entry for the calling
continuation), and fulfills its returned promise with void (`undefined`). -/
def ClaimC3Stated : Prop :=
  ∀ (st : SandboxerState) (e : AsyncId) (id : SandboxId) (conn : SandboxEntry),
    mapGet st.context e = some id → mapGet st.sandboxes id = some conn →
      CloseEvent.triggerInvoked conn.rollback ROLLBACK ∈ (closeSandbox st e).events ∧
      mapGet (closeSandbox st e).state.sandboxes id = none ∧
      mapGet (closeSandbox st e).state.context e = none ∧
      (closeSandbox st e).settlement = Settlement.fulfilled Value.undefined

/-- Claim C5 exactly as stated, for refutation ("only if" direction of its
iff, which also carries "the sentinel value never surfaces"): whenever the
promise `createSandbox` returns rejects with `v`, the transaction promise
rejected before resolution and `v` is not the rollback sentinel. -/
def ClaimC5Stated : Prop :=
  ∀ (e : AsyncId) (nid : SandboxId) (run : TxRun) (v : Value),
    outerSettlement (createSandboxTrace e nid run) = some (Settlement.rejected v) →
      run = TxRun.failedBeforeBody v ∧ v ≠ ROLLBACK

/-- Claim C8 exactly as stated, for refutation: every property name other
than the two lifecycle operations reads as on the routed client. -/
def ClaimC8Stated : Prop :=
  ∀ (st : SandboxerState) (e : AsyncId) (name : String),
    name ≠ "createSandbox" → name ≠ "closeSandbox" →
      proxyGet st e name = GetResult.fromConn ( _getConn st e) name

/-! ### Theorems -/

theorem mapGet_mapSet_self {α β : Type} [DecidableEq α] (m : List (α × β)) (k : α) (v : β) :
    mapGet (mapSet m k v) k = some v := by
  simp [mapSet, mapGet]

theorem mapGet_mapDelete_self {α β : Type} [DecidableEq α] (m : List (α × β)) (k : α) :
    mapGet (mapDelete m k) k = none := by
  induction m with
  | nil => rfl
  | cons p rest ih =>
    obtain ⟨a, b⟩ := p
    by_cases hak : a = k
    · simpa [mapDelete, hak] using ih
    · simpa [mapDelete, mapGet, hak] using ih

theorem mapGet_mapDelete_ne {α β : Type} [DecidableEq α] (m : List (α × β)) (k k' : α)
    (h : k' ≠ k) : mapGet (mapDelete m k) k' = mapGet m k' := by
  induction m with
  | nil => rfl
  | cons p rest ih =>
    obtain ⟨a, b⟩ := p
    by_cases hak : a = k
    · subst hak
      have hak' : a ≠ k' := fun hh => h (hh ▸ rfl)
      simpa [mapDelete, mapGet, hak'] using ih
    · by_cases hak' : a = k'
      · subst hak'
        simp [mapDelete, mapGet, hak]
      · simpa [mapDelete, mapGet, hak, hak'] using ih

theorem mapGet_mapSet_ne {α β : Type} [DecidableEq α] (m : List (α × β)) (k k' : α) (v : β)
    (h : k' ≠ k) : mapGet (mapSet m k v) k' = mapGet m k' := by
  have hk : ¬ k = k' := fun hh => h hh.symm
  simp [mapSet, mapGet, hk, mapGet_mapDelete_ne m k k' h]

/-- C1: in "sandbox" mode, a property access whose name the wrapper does not
itself define is forwarded to the connection `_getConn` resolves, and that
connection is: the transaction handle of the sandbox named by the current
continuation's Context Registry entry when that entry and its Sandbox
Registry entry both exist, and otherwise — no Context Registry entry, or a
sandbox id with no Sandbox Registry entry — the base connection, never an
error. -/
theorem sandbox_routing (st : SandboxerState) (e : AsyncId) (name : String)
    (hm : st.mode = SANDBOX) (hn : hasProp name = false) :
    proxyGet st e name = GetResult.fromConn ( _getConn st e) name ∧
    (mapGet st.context e = none → _getConn st e = Conn.base) ∧
    (∀ id, mapGet st.context e = some id → mapGet st.sandboxes id = none →
       _getConn st e = Conn.base) ∧
    (∀ id conn, mapGet st.context e = some id → mapGet st.sandboxes id = some conn →
       _getConn st e = Conn.tx conn.tx) := by
  have hmode : ¬ st.mode = NORMAL := by rw [hm]; decide
  refine ⟨?_, ?_, ?_, ?_⟩
  · simp [proxyGet, hn]
  · intro h; simp [ _getConn, hmode, objGet, h]
  · intro id h1 h2; simp [ _getConn, hmode, objGet, h1, h2]
  · intro id conn h1 h2; simp [ _getConn, hmode, objGet, h1, h2]

/-- C1 witness: the routing theorem applied at the open-sandbox state
`stOpen`, continuation 1, and the client property name "query". -/
theorem sandbox_routing_witness :
    proxyGet stOpen 1 "query" = GetResult.fromConn ( _getConn stOpen 1) "query" ∧
    (mapGet stOpen.context 1 = none → _getConn stOpen 1 = Conn.base) ∧
    (∀ id, mapGet stOpen.context 1 = some id → mapGet stOpen.sandboxes id = none →
       _getConn stOpen 1 = Conn.base) ∧
    (∀ id conn, mapGet stOpen.context 1 = some id → mapGet stOpen.sandboxes id = some conn →
       _getConn stOpen 1 = Conn.tx conn.tx) :=
  sandbox_routing stOpen 1 "query" (by decide) (by decide)

/-- C2: `createSandbox` records the freshly minted id (`uuid.v4()` is an
external collaborator, entering as the parameter `nid`) against the current
continuation id in the Context Registry, stores the captured transaction
handle and rollback trigger in the Sandbox Registry under that id, and
resolves its returned promise with the id immediately after the capture — as
the trace shows, the resolution is the very next event after the store and no
settlement of the transaction promise precedes it. -/
theorem createSandbox_binds_and_resolves (st : SandboxerState) (e : AsyncId)
    (nid : SandboxId) (tx : TxHandle) (later : Option Value) :
    mapGet (createSandboxSync st e nid).context e = some nid ∧
    mapGet (createSandboxAfter st e nid (TxRun.bodyInvoked tx later)).sandboxes nid
      = some { tx := tx, rollback := Cap.rejectCap nid } ∧
    (createSandboxTrace e nid (TxRun.bodyInvoked tx later)).take 3
      = [CSEvent.contextBind e nid, CSEvent.sandboxStore nid, CSEvent.outerResolve nid] ∧
    outerSettlement (createSandboxTrace e nid (TxRun.bodyInvoked tx later))
      = some (Settlement.fulfilled (Value.sid nid)) ∧
    ∀ v, CSEvent.txSettled v ∉
      (createSandboxTrace e nid (TxRun.bodyInvoked tx later)).take 3 := by
  refine ⟨mapGet_mapSet_self .., mapGet_mapSet_self .., rfl, rfl, ?_⟩
  intro v
  show CSEvent.txSettled v ∉
    [CSEvent.contextBind e nid, CSEvent.sandboxStore nid, CSEvent.outerResolve nid]
  simp

/-- C3 counterexample: at `stOpen` (continuation 1 bound to the open sandbox
"s0"), `closeSandbox` leaves the Context Registry entry of the calling
continuation in place (only the Sandbox Registry entry is deleted) and
fulfills its promise with the `Sandboxer` instance (`return this`), not with
void — refuting the claim as stated. -/
theorem closeSandbox_evicts_both_cex : ¬ ClaimC3Stated := by
  intro h
  have h2 := h stOpen 1 "s0" { tx := 7, rollback := Cap.rejectCap "s0" }
    (by decide) (by decide)
  exact absurd h2.2.2.1 (by decide)

/-- C3 (amended): when the current continuation resolves to an open sandbox,
`closeSandbox` invokes the stored rollback trigger with the sentinel marker,
awaits the `undefined` that call returns, evicts the Sandbox Registry entry —
while the Context Registry entry of the calling continuation remains, to be
removed only when the continuation is destroyed — and fulfills its returned
promise with the `Sandboxer` instance, not with void. -/
theorem closeSandbox_rollback_and_evict (st : SandboxerState) (e : AsyncId)
    (id : SandboxId) (conn : SandboxEntry)
    (h1 : mapGet st.context e = some id) (h2 : mapGet st.sandboxes id = some conn) :
    (closeSandbox st e).events
      = [CloseEvent.triggerInvoked conn.rollback ROLLBACK,
         CloseEvent.awaited Value.undefined,
         CloseEvent.sandboxDeleted id,
         CloseEvent.closeFulfilled Value.thisObj] ∧
    mapGet (closeSandbox st e).state.sandboxes id = none ∧
    (closeSandbox st e).state.context = st.context ∧
    (closeSandbox st e).settlement = Settlement.fulfilled Value.thisObj := by
  have hc : closeSandbox st e
      = { events := [CloseEvent.triggerInvoked conn.rollback ROLLBACK,
                     CloseEvent.awaited Value.undefined,
                     CloseEvent.sandboxDeleted id,
                     CloseEvent.closeFulfilled Value.thisObj],
          state := { st with sandboxes := mapDelete st.sandboxes id },
          settlement := Settlement.fulfilled Value.thisObj } := by
    simp only [closeSandbox, h1, h2]
    rfl
  rw [hc]
  exact ⟨rfl, mapGet_mapDelete_self .., rfl, rfl⟩

/-- C3 witness: the amended theorem applied at `stOpen`, continuation 1,
sandbox "s0" and its concrete registry entry. -/
theorem closeSandbox_rollback_and_evict_witness :
    (closeSandbox stOpen 1).events
      = [CloseEvent.triggerInvoked (Cap.rejectCap "s0") ROLLBACK,
         CloseEvent.awaited Value.undefined,
         CloseEvent.sandboxDeleted "s0",
         CloseEvent.closeFulfilled Value.thisObj] ∧
    mapGet (closeSandbox stOpen 1).state.sandboxes "s0" = none ∧
    (closeSandbox stOpen 1).state.context = stOpen.context ∧
    (closeSandbox stOpen 1).settlement = Settlement.fulfilled Value.thisObj :=
  closeSandbox_rollback_and_evict stOpen 1 "s0"
    { tx := 7, rollback := Cap.rejectCap "s0" } (by decide) (by decide)

/-- C4: evaluated at the open-sandbox state `stOpen`, the full event order of
a `closeSandbox` call shows the function awaiting `undefined` — the return
value of the reject function, not the transaction promise — and fulfilling
its own promise strictly before the transaction promise settles, i.e. before
the database ROLLBACK has completed.  A query issued right after awaiting
`closeSandbox` is therefore not guaranteed to observe the rollback. -/
theorem closeSandbox_fulfills_before_rollback_settles :
    closeRunTrace stOpen 1
      = [CloseEvent.triggerInvoked (Cap.rejectCap "s0") ROLLBACK,
         CloseEvent.awaited Value.undefined,
         CloseEvent.sandboxDeleted "s0",
         CloseEvent.closeFulfilled Value.thisObj,
         CloseEvent.txSettledEvt ROLLBACK] ∧
    (closeRunTrace stOpen 1).findIdx isCloseFulfilledEvt
      < (closeRunTrace stOpen 1).findIdx isTxSettledEvt := by
  decide

/-- C5 counterexample: when the begin call fails before the body with a value
equal to the sentinel, the `.catch` handler sees `resolved === false`, so the
condition `!resolved || err !== ROLLBACK` holds and the returned promise
rejects with that value — the sentinel surfaces to caller code, refuting the
claim as stated. -/
theorem createSandbox_sentinel_surfaces_cex : ¬ ClaimC5Stated := by
  intro h
  have h2 := h 0 "s0" (TxRun.failedBeforeBody ROLLBACK) ROLLBACK (by decide)
  exact h2.2 rfl

/-- C5 (amended): the promise `createSandbox` returns rejects with `v` if and
only if the transaction promise rejects with `v` before the handle has been
captured — whatever `v` is, the sentinel included; once the body has run and
the promise has resolved with the sandbox id, any later rejection of the
transaction promise (sentinel or not) is swallowed and the promise stays
fulfilled. -/
theorem createSandbox_reject_iff (e : AsyncId) (nid : SandboxId) (run : TxRun)
    (v : Value) (tx : TxHandle) (later : Option Value) :
    (outerSettlement (createSandboxTrace e nid run) = some (Settlement.rejected v)
       ↔ run = TxRun.failedBeforeBody v) ∧
    outerSettlement (createSandboxTrace e nid (TxRun.bodyInvoked tx later))
      = some (Settlement.fulfilled (Value.sid nid)) := by
  constructor
  · cases run with
    | bodyInvoked tx' later' =>
      rw [show outerSettlement (createSandboxTrace e nid (TxRun.bodyInvoked tx' later'))
            = some (Settlement.fulfilled (Value.sid nid)) from rfl]
      exact iff_of_false (by simp) (by simp)
    | failedBeforeBody w =>
      rw [show outerSettlement (createSandboxTrace e nid (TxRun.failedBeforeBody w))
            = some (Settlement.rejected w) from rfl]
      simp [eq_comm]
  · rfl

/-- C6: the Execution-Context Tracker preserves the Context Registry
contract.  On `init`, when the triggering continuation has an entry, the new
continuation receives a copy of it, the trigger's own entry remains, and
every other continuation's entry is untouched; when the trigger has none, the
registry is left exactly as it was.  On `destroy`, the continuation's entry
(if any) is removed and every other entry is untouched.  `HookEvent` has
exactly these two constructors because `init` and `destroy` are the only
handlers the constructor installs, so no other tracker action mutates the
registry. -/
theorem tracker_context_invariant (ctx : List (AsyncId × SandboxId)) (a t : AsyncId)
    (sid : SandboxId) :
    (mapGet ctx t = some sid →
       mapGet (hookStep ctx (HookEvent.initEvt a t)) a = some sid ∧
       mapGet (hookStep ctx (HookEvent.initEvt a t)) t = some sid ∧
       ∀ b, b ≠ a → mapGet (hookStep ctx (HookEvent.initEvt a t)) b = mapGet ctx b) ∧
    (mapGet ctx t = none → hookStep ctx (HookEvent.initEvt a t) = ctx) ∧
    mapGet (hookStep ctx (HookEvent.destroyEvt a)) a = none ∧
    (∀ b, b ≠ a → mapGet (hookStep ctx (HookEvent.destroyEvt a)) b = mapGet ctx b) := by
  refine ⟨?_, ?_, ?_, ?_⟩
  · intro h
    refine ⟨?_, ?_, ?_⟩
    · simp [hookStep, hookInit, h, mapGet_mapSet_self]
    · by_cases hta : t = a
      · subst hta; simp [hookStep, hookInit, h, mapGet_mapSet_self]
      · simp [hookStep, hookInit, h]
        rw [mapGet_mapSet_ne ctx a t sid hta]
        exact h
    · intro b hb
      simp [hookStep, hookInit, h]
      exact mapGet_mapSet_ne ctx a b sid hb
  · intro h
    simp [hookStep, hookInit, h]
  · by_cases hd : (mapGet ctx a).isSome
    · simp [hookStep, hookDestroy, hd, mapGet_mapDelete_self]
    · simp [hookStep, hookDestroy, hd]
      exact Option.not_isSome_iff_eq_none.mp hd
  · intro b hb
    by_cases hd : (mapGet ctx a).isSome
    · simp [hookStep, hookDestroy, hd]
      exact mapGet_mapDelete_ne ctx a b hb
    · simp [hookStep, hookDestroy, hd]

theorem closeSandbox_noop_of_none {st : SandboxerState} {e : AsyncId}
    (h : objGet st.sandboxes (mapGet st.context e) = none) :
    closeSandbox st e
      = { events := [CloseEvent.closeFulfilled Value.thisObj], state := st,
          settlement := Settlement.fulfilled Value.thisObj } := by
  cases h1 : mapGet st.context e with
  | none => simp [closeSandbox, h1]
  | some id =>
    rw [h1] at h
    simp [closeSandbox, h1, show mapGet st.sandboxes id = none from h]

theorem closeSandbox_settlement_eq (st : SandboxerState) (e : AsyncId) :
    (closeSandbox st e).settlement = Settlement.fulfilled Value.thisObj := by
  cases h1 : mapGet st.context e with
  | none => simp [closeSandbox, h1]
  | some id =>
    cases h2 : mapGet st.sandboxes id with
    | none => simp [closeSandbox, h1, h2]
    | some conn => simp [closeSandbox, h1, h2]

theorem closeSandbox_second_state (st : SandboxerState) (e : AsyncId) :
    (closeSandbox (closeSandbox st e).state e).state = (closeSandbox st e).state := by
  cases h1 : mapGet st.context e with
  | none =>
    have hs : (closeSandbox st e).state = st := by simp [closeSandbox, h1]
    rw [hs]
    rw [show (closeSandbox st e).state = st from hs]
  | some id =>
    cases h2 : mapGet st.sandboxes id with
    | none =>
      have hs : (closeSandbox st e).state = st := by simp [closeSandbox, h1, h2]
      rw [hs]
      rw [show (closeSandbox st e).state = st from hs]
    | some conn =>
      have hs : (closeSandbox st e).state
          = { st with sandboxes := mapDelete st.sandboxes id } := by
        simp [closeSandbox, h1, h2]
      rw [hs]
      have h1' : mapGet ({ st with sandboxes := mapDelete st.sandboxes id} :
          SandboxerState).context e = some id := h1
      have h2' : mapGet ({ st with sandboxes := mapDelete st.sandboxes id} :
          SandboxerState).sandboxes id = none := mapGet_mapDelete_self ..
      simp [closeSandbox, h1', h2']

/-- C7: `closeSandbox` is idempotent.  When the current continuation resolves
to no open sandbox — no Context Registry entry, or a sandbox id with no
Sandbox Registry entry (never created, or already closed) — the call is a
full no-op: both registries are left exactly as they were and the returned
promise fulfills rather than rejects.  Moreover, for every state, the
returned promise fulfills, and a second `closeSandbox` right after a first
changes nothing further and fulfills as well. -/
theorem closeSandbox_idempotent (st : SandboxerState) (e : AsyncId)
    (h : objGet st.sandboxes (mapGet st.context e) = none) :
    closeSandbox st e
      = { events := [CloseEvent.closeFulfilled Value.thisObj], state := st,
          settlement := Settlement.fulfilled Value.thisObj } ∧
    (∀ st' e', (closeSandbox (closeSandbox st' e').state e').state
        = (closeSandbox st' e').state) ∧
    (∀ st' e', (closeSandbox (closeSandbox st' e').state e').settlement
        = Settlement.fulfilled Value.thisObj) ∧
    ∀ st' e', (closeSandbox st' e').settlement = Settlement.fulfilled Value.thisObj :=
  ⟨closeSandbox_noop_of_none h,
   fun st' e' => closeSandbox_second_state st' e',
   fun st' e' => closeSandbox_settlement_eq (closeSandbox st' e').state e',
   fun st' e' => closeSandbox_settlement_eq st' e'⟩

/-- C7 witness: the idempotence theorem applied at a state whose continuation
1 is bound to a sandbox id that has no Sandbox Registry entry (already
closed), where closing is a settled no-op. -/
theorem closeSandbox_idempotent_witness :
    closeSandbox { mode := SANDBOX, context := [(1, "s0")], sandboxes := [] } 1
      = { events := [CloseEvent.closeFulfilled Value.thisObj],
          state := { mode := SANDBOX, context := [(1, "s0")], sandboxes := [] },
          settlement := Settlement.fulfilled Value.thisObj } ∧
    (∀ st' e', (closeSandbox (closeSandbox st' e').state e').state
        = (closeSandbox st' e').state) ∧
    (∀ st' e', (closeSandbox (closeSandbox st' e').state e').settlement
        = Settlement.fulfilled Value.thisObj) ∧
    ∀ st' e', (closeSandbox st' e').settlement = Settlement.fulfilled Value.thisObj :=
  closeSandbox_idempotent { mode := SANDBOX, context := [(1, "s0")], sandboxes := [] } 1
    (by decide)

/-- C8 counterexample: the name "mode" is neither lifecycle operation, yet
`Reflect.has` finds it on the `Sandboxer` (it is an own field), so the proxy
serves it from the wrapper instead of forwarding it to the routed client —
the wrapper observably exposes a property beyond the base surface plus the
two operations, refuting the claim as stated. -/
theorem proxy_extra_surface_cex : ¬ ClaimC8Stated := by
  intro h
  have h2 := h stOpen 1 "mode" (by decide) (by decide)
  exact absurd h2 (by decide)

/-- C8 (amended): the wrapper forwards exactly the property names the
`Sandboxer` does not itself have; besides `createSandbox` and `closeSandbox`,
the `Sandboxer` surface also contains its own fields `pg`, `mode`,
`sandboxes`, `context` and the method `_getConn` (plus the usual
`Object.prototype` members), and those names are served by the wrapper
itself, shadowing any property of the same name on the base client. -/
theorem proxy_surface (st : SandboxerState) (e : AsyncId) (name : String)
    (h : hasProp name = false) :
    proxyGet st e name = GetResult.fromConn ( _getConn st e) name ∧
    hasProp "createSandbox" = true ∧ hasProp "closeSandbox" = true ∧
    hasProp "pg" = true ∧ hasProp "mode" = true ∧ hasProp "sandboxes" = true ∧
    hasProp "context" = true ∧ hasProp "_getConn" = true ∧
    proxyGet st e "mode" = GetResult.fromSandboxer "mode" := by
  refine ⟨by simp [proxyGet, h], by decide, by decide, by decide, by decide,
    by decide, by decide, by decide, rfl⟩

/-- C8 witness: the amended surface theorem applied at `stOpen`,
continuation 1 and the forwarded client property name "query". -/
theorem proxy_surface_witness :
    proxyGet stOpen 1 "query" = GetResult.fromConn ( _getConn stOpen 1) "query" ∧
    hasProp "createSandbox" = true ∧ hasProp "closeSandbox" = true ∧
    hasProp "pg" = true ∧ hasProp "mode" = true ∧ hasProp "sandboxes" = true ∧
    hasProp "context" = true ∧ hasProp "_getConn" = true ∧
    proxyGet stOpen 1 "mode" = GetResult.fromSandboxer "mode" :=
  proxy_surface stOpen 1 "query" (by decide)

theorem settleOf_no_fulfill (nid : SandboxId) (calls : List (Cap × Value)) :
    (∀ cv ∈ calls, cv.1 ≠ Cap.resolveCap nid) →
      ∀ v, settleOf nid calls ≠ some (Settlement.fulfilled v) := by
  induction calls with
  | nil => intro _ v; simp [settleOf]
  | cons cv rest ih =>
    intro h v
    obtain ⟨c, w⟩ := cv
    cases c with
    | resolveCap p =>
      have hp : ¬ p = nid := by
        intro hp
        exact h (Cap.resolveCap p, w) (List.mem_cons_self ..) (by rw [hp])
      simp only [settleOf, if_neg hp]
      exact ih (fun cv hm => h cv (List.mem_cons_of_mem _ hm)) v
    | rejectCap p =>
      by_cases hp : p = nid
      · simp [settleOf, hp]
      · simp only [settleOf, if_neg hp]
        exact ih (fun cv hm => h cv (List.mem_cons_of_mem _ hm)) v

theorem settleOf_rejected_mem (nid : SandboxId) (calls : List (Cap × Value)) :
    ∀ v, settleOf nid calls = some (Settlement.rejected v) →
      (Cap.rejectCap nid, v) ∈ calls := by
  induction calls with
  | nil => intro v h; simp [settleOf] at h
  | cons cv rest ih =>
    intro v h
    obtain ⟨c, w⟩ := cv
    cases c with
    | resolveCap p =>
      by_cases hp : p = nid
      · simp [settleOf, hp] at h
      · simp only [settleOf, if_neg hp] at h
        exact List.mem_cons_of_mem _ (ih v h)
    | rejectCap p =>
      by_cases hp : p = nid
      · subst hp
        simp only [settleOf, if_pos rfl] at h
        have hw : w = v := by simpa using h
        subst hw
        exact List.mem_cons_self ..
      · simp only [settleOf, if_neg hp] at h
        exact List.mem_cons_of_mem _ (ih v h)

/-- C9: the transaction body `createSandbox` hands to `pg.tx` returns a
promise whose resolve capability is discarded (`_`), the stored rollback
trigger being its reject capability; given that every settlement attempt
avoids the discarded resolve capability (nothing else ever escapes the
executor), the body promise never fulfills, and when it settles it is
rejected exactly with a value that was passed to the stored trigger — so the
transaction is never committed and every sandbox transaction ends in
rollback. -/
theorem sandbox_tx_never_commits (sb : List (SandboxId × SandboxEntry))
    (nid : SandboxId) (tx : TxHandle) (calls : List (Cap × Value))
    (h : ∀ cv ∈ calls, cv.1 ≠ Cap.resolveCap nid) :
    mapGet (grabTransactionReference sb nid tx) nid
      = some { tx := tx, rollback := Cap.rejectCap nid } ∧
    (∀ v, settleOf nid calls ≠ some (Settlement.fulfilled v)) ∧
    (∀ v, settleOf nid calls = some (Settlement.rejected v) →
       (Cap.rejectCap nid, v) ∈ calls) :=
  ⟨mapGet_mapSet_self .., settleOf_no_fulfill nid calls h, settleOf_rejected_mem nid calls⟩

/-- C9 witness: the theorem applied to sandbox "s0" with transaction handle 7
and the single invocation of the stored trigger with the sentinel. -/
theorem sandbox_tx_never_commits_witness :
    mapGet (grabTransactionReference [] "s0" 7) "s0"
      = some { tx := 7, rollback := Cap.rejectCap "s0" } ∧
    (∀ v, settleOf "s0" [(Cap.rejectCap "s0", ROLLBACK)]
       ≠ some (Settlement.fulfilled v)) ∧
    (∀ v, settleOf "s0" [(Cap.rejectCap "s0", ROLLBACK)]
         = some (Settlement.rejected v) →
       (Cap.rejectCap "s0", v) ∈ [(Cap.rejectCap "s0", ROLLBACK)]) :=
  sandbox_tx_never_commits [] "s0" 7 [(Cap.rejectCap "s0", ROLLBACK)] (by decide)

/-- C10: after `closeSandbox` has removed a sandbox's Sandbox Registry entry,
any continuation whose Context Registry entry still carries that sandbox id
resolves to the base connection: the stale binding causes no error and never
routes an access to the closed transaction handle. -/
theorem stale_context_falls_back (st : SandboxerState) (e e' : AsyncId)
    (id : SandboxId) (conn : SandboxEntry)
    (hm : st.mode = SANDBOX)
    (h1 : mapGet st.context e = some id) (h2 : mapGet st.sandboxes id = some conn)
    (h3 : mapGet (closeSandbox st e).state.context e' = some id) :
    _getConn (closeSandbox st e).state e' = Conn.base ∧
    ∀ name, hasProp name = false →
      proxyGet (closeSandbox st e).state e' name = GetResult.fromConn Conn.base name := by
  have hs : (closeSandbox st e).state
      = { st with sandboxes := mapDelete st.sandboxes id } := by
    simp [closeSandbox, h1, h2]
  rw [hs] at h3 ⊢
  have hmode : ¬ ({ st with sandboxes := mapDelete st.sandboxes id} :
      SandboxerState).mode = NORMAL := by
    show ¬ st.mode = NORMAL
    rw [hm]; decide
  have hget : _getConn ({ st with sandboxes := mapDelete st.sandboxes id} :
      SandboxerState) e' = Conn.base := by
    simp [ _getConn, hmode, objGet, h3, mapGet_mapDelete_self]
  refine ⟨hget, fun name hn => ?_⟩
  simp [proxyGet, hn, hget]

/-- C10 witness: the fallback theorem applied at `stOpen`, closing from
continuation 1 and reading again from the same continuation, whose stale
Context Registry entry still names "s0". -/
theorem stale_context_falls_back_witness :
    _getConn (closeSandbox stOpen 1).state 1 = Conn.base ∧
    ∀ name, hasProp name = false →
      proxyGet (closeSandbox stOpen 1).state 1 name
        = GetResult.fromConn Conn.base name :=
  stale_context_falls_back stOpen 1 1 "s0"
    { tx := 7, rollback := Cap.rejectCap "s0" }
    (by decide) (by decide) (by decide) (by decide)

end PgSandbox
